import Mathlib

/-!
Shallow embedding of the CS330 scene-rendering code (SceneManager.cpp,
ShaderManager.cpp, fragmentShader.glsl) and proofs about it.

Conventions of the embedding:
* C float values are modelled exactly by the rational value of their source
  literal (`ℚ`); all arithmetic both passes perform on them is addition,
  subtraction, multiplication and division, which floats evaluate
  deterministically, so two identical source computations stay equal.
* `cosf`/`sinf` of the platform are abstracted as functions `cosd sind : ℚ → ℚ`
  applied to the angle in degrees (the code always computes
  `glm::cos(glm::radians(deg))`, so the degree value is the true input).
* GPU handles (`GLuint` ids, program ids) are modelled as `ℤ`.
* The shader uniform store is a map from uniform-name strings to values.
-/

namespace CS330

/-- A 3-component float vector (glm::vec3). -/
structure Vec3 where
  x : ℚ
  y : ℚ
  z : ℚ
deriving DecidableEq, Repr

/-- A 4-component float vector (glm::vec4). -/
structure Vec4 where
  x : ℚ
  y : ℚ
  z : ℚ
  w : ℚ
deriving DecidableEq, Repr

/-- A 2-component float vector (glm::vec2). -/
structure Vec2 where
  x : ℚ
  y : ℚ
deriving DecidableEq, Repr

/-- Componentwise difference of vec3 (GLSL `a - b`). -/
def vsub (a b : Vec3) : Vec3 := ⟨a.x - b.x, a.y - b.y, a.z - b.z⟩

/-- Dot product of vec3 (GLSL `dot`). -/
def vdot (a b : Vec3) : ℚ := a.x * b.x + a.y * b.y + a.z * b.z

/-- Componentwise product of vec3 (GLSL `a * b`). -/
def vmul (a b : Vec3) : Vec3 := ⟨a.x * b.x, a.y * b.y, a.z * b.z⟩

/-- Componentwise product of vec2 (GLSL `a * b`). -/
def v2mul (a b : Vec2) : Vec2 := ⟨a.x * b.x, a.y * b.y⟩

/-- 4x4 float matrix (glm::mat4), entry `(i, j)` = row `i`, column `j`. -/
abbrev Mat4 := Matrix (Fin 4) (Fin 4) ℚ

/-- One slot of the texture registry: `TEXTURE_ID` struct with fields
`tag` and `ID` (SceneManager.h).  In `SceneManager` the slots live in the
fixed array `m_textureIDs[16]` together with the count `m_loadedTextures`;
we model the occupied prefix of that array as a list. -/
structure TextureSlot where
  tag : String
  id : ℤ
deriving DecidableEq, Repr

/-- `OBJECT_MATERIAL` struct (SceneManager.h): tag plus five lighting
coefficient fields. -/
structure ObjectMaterial where
  tag : String
  ambientColor : Vec3
  ambientStrength : ℚ
  diffuseColor : Vec3
  specularColor : Vec3
  shininess : ℚ
deriving DecidableEq, Repr

/-! ## Texture registry: CreateGLTexture / FindTextureID / FindTextureSlot -/

/-- Outcome of `stbi_load` on a file: failure (null pointer), or a decoded
image with its width, height and channel count. -/
inductive ImageLoad where
  | fail : ImageLoad
  | ok (width height channels : ℤ) : ImageLoad
deriving DecidableEq, Repr

/-- `SceneManager::CreateGLTexture` (SceneManager.cpp lines 238-300).
Inputs abstracting the environment: the `stbi_load` result for the file and
the fresh id `glGenTextures` would hand out.  Returns the C++ return value
paired with the new occupied-slot list.  Control flow mirrors the source:
null image -> `return false` with the registry untouched; channel count 3
or 4 -> upload, then append `(tag, textureID)` at index `m_loadedTextures`
and increment the count; any other channel count -> `return false` with the
registry untouched. -/
def CreateGLTexture (img : ImageLoad) (textureID : ℤ) (tag : String)
    (slots : List TextureSlot) : Bool × List TextureSlot :=
  match img with
  | .fail => (false, slots)
  | .ok _ _ channels =>
    if channels = 3 then
      (true, slots ++ [⟨tag, textureID⟩])
    else if channels = 4 then
      (true, slots ++ [⟨tag, textureID⟩])
    else
      (false, slots)

/-- Loop body shared by `FindTextureID` (lines 345-363): scan the occupied
slots from index `idx`, return the stored id of the first slot whose tag
matches, `-1` when the scan runs out. -/
def findTextureIDAux : List TextureSlot → String → ℤ
  | [], _ => -1
  | s :: rest, tag => if s.tag = tag then s.id else findTextureIDAux rest tag

/-- `SceneManager::FindTextureID` (SceneManager.cpp lines 345-363). -/
def FindTextureID (slots : List TextureSlot) (tag : String) : ℤ :=
  findTextureIDAux slots tag

/-- Loop body of `FindTextureSlot` (lines 373-391): scan from index `idx`,
return the index of the first slot whose tag matches, `-1` when the scan
runs out. -/
def findTextureSlotAux : List TextureSlot → String → ℤ → ℤ
  | [], _, _ => -1
  | s :: rest, tag, idx =>
    if s.tag = tag then idx else findTextureSlotAux rest tag (idx + 1)

/-- `SceneManager::FindTextureSlot` (SceneManager.cpp lines 373-391). -/
def FindTextureSlot (slots : List TextureSlot) (tag : String) : ℤ :=
  findTextureSlotAux slots tag 0

/-! ## Material registry: FindMaterial -/

/-- Loop of `FindMaterial` (lines 409-426): scan for the first material whose
tag matches; on a match copy its five coefficient fields (but not the tag)
into the reference parameter `material`; otherwise leave it untouched. -/
def findMaterialLoop : List ObjectMaterial → String → ObjectMaterial → ObjectMaterial
  | [], _, material => material
  | m :: rest, tag, material =>
    if m.tag = tag then
      { material with
        ambientColor := m.ambientColor
        ambientStrength := m.ambientStrength
        diffuseColor := m.diffuseColor
        specularColor := m.specularColor
        shininess := m.shininess }
    else
      findMaterialLoop rest tag material

/-- `SceneManager::FindMaterial` (SceneManager.cpp lines 402-429).  Returns
the C++ return value paired with the final value of the by-reference output
parameter.  Mirrors the source: an empty collection returns `false`
immediately; otherwise the scan loop runs and the function then executes
`return(true)` unconditionally - the `bFound` flag is not consulted by the
return statement. -/
def FindMaterial (mats : List ObjectMaterial) (tag : String)
    (material : ObjectMaterial) : Bool × ObjectMaterial :=
  if mats.length = 0 then
    (false, material)
  else
    (true, findMaterialLoop mats tag material)

/-! ## Shader uniform store and SceneManager state -/

/-- A value stored in a shader uniform (the overloads of the ShaderManager
`set...Value` methods: int/bool, float, vec2, vec3, vec4, mat4, sampler). -/
inductive UVal where
  | b (v : Bool)
  | i (v : ℤ)
  | f (v : ℚ)
  | v2 (v : Vec2)
  | v3 (v : Vec3)
  | v4 (v : Vec4)
  | m4 (v : Mat4)
deriving DecidableEq

/-- The uniform state of one shader program: uniform name to last value
written, `none` when never written. -/
def Uniforms : Type := String → Option UVal

/-- One `setXValue(name, v)` call on a shader program. -/
def setUniform (u : Uniforms) (name : String) (v : UVal) : Uniforms :=
  fun n => if n = name then some v else u n

/-- The texture-related global GL state touched by `SetShaderTexture`:
the active texture unit (`glActiveTexture`) and the texture bound to
`GL_TEXTURE_2D` (`glBindTexture`). -/
structure GLTexState where
  activeTexture : ℤ
  boundTexture2D : ℤ
deriving DecidableEq, Repr

/-- The part of the `SceneManager` object state the uniform-dispatch methods
touch, together with the state of its collaborators:
`shaderPresent` models `m_pShaderManager != NULL`, `uniforms` that shader's
uniform store, `depthShaderPresent`/`depthUniforms` the same for
`m_pDepthShaderManager`, `gl` the global texture bind state, `textureIDs`
the occupied prefix of `m_textureIDs` (so `m_loadedTextures` is its length),
and `objectMaterials` the `m_objectMaterials` vector. -/
structure SMState where
  shaderPresent : Bool
  uniforms : Uniforms
  depthShaderPresent : Bool
  depthUniforms : Uniforms
  gl : GLTexState
  textureIDs : List TextureSlot
  objectMaterials : List ObjectMaterial

/-! ## glm matrix constructors

glm stores matrices column-major: `m[c][r]` is row `r` of column `c`.  We
translate every glm matrix into the mathematical matrix it denotes (entry
`(r, c)` of `Mat4` is glm's `m[c][r]`), under which glm's `operator*` is
ordinary matrix multiplication. -/

/-- `glm::scale(v)`: diagonal matrix with the scale factors. -/
def glmScale (v : Vec3) : Mat4 :=
  !![v.x, 0, 0, 0;
     0, v.y, 0, 0;
     0, 0, v.z, 0;
     0, 0, 0, 1]

/-- `glm::translate(v)`: identity with the translation in the last column. -/
def glmTranslate (v : Vec3) : Mat4 :=
  !![1, 0, 0, v.x;
     0, 1, 0, v.y;
     0, 0, 1, v.z;
     0, 0, 0, 1]

/-- `glm::rotate(angle, axis)` with `c = cos(angle)`, `s = sin(angle)`:
the axis-angle rotation matrix built entrywise as in
glm's `rotate(mat4, T, vec3)` (Rodrigues form `temp[i] = (1-c) * axis[i]`).
The source normalizes the axis first; every call site in this code passes a
unit coordinate axis, for which normalization is the identity, so the axis
is used as given. -/
def glmRotate (c s : ℚ) (a : Vec3) : Mat4 :=
  !![c + (1 - c) * a.x * a.x, (1 - c) * a.y * a.x - s * a.z, (1 - c) * a.z * a.x + s * a.y, 0;
     (1 - c) * a.x * a.y + s * a.z, c + (1 - c) * a.y * a.y, (1 - c) * a.z * a.y - s * a.x, 0;
     (1 - c) * a.x * a.z - s * a.y, (1 - c) * a.y * a.z + s * a.x, c + (1 - c) * a.z * a.z, 0;
     0, 0, 0, 1]

/-! ## Transform & uniform dispatcher methods -/

/-- The matrix `SetTransformations` builds (SceneManager.cpp lines 446-461):
individual `glm` matrices for scale, the three axis rotations
(`glm::rotate(glm::radians(deg), axis)`) and translation, combined as
`translation * rotationX * rotationY * rotationZ * scale`.
`cosd`/`sind` give the platform's cosine/sine of an angle in degrees. -/
def setTransformationsMatrix (cosd sind : ℚ → ℚ) (scaleXYZ : Vec3)
    (XrotationDegrees YrotationDegrees ZrotationDegrees : ℚ)
    (positionXYZ : Vec3) : Mat4 :=
  let scale := glmScale scaleXYZ
  let rotationX := glmRotate (cosd XrotationDegrees) (sind XrotationDegrees) ⟨1, 0, 0⟩
  let rotationY := glmRotate (cosd YrotationDegrees) (sind YrotationDegrees) ⟨0, 1, 0⟩
  let rotationZ := glmRotate (cosd ZrotationDegrees) (sind ZrotationDegrees) ⟨0, 0, 1⟩
  let translation := glmTranslate positionXYZ
  translation * rotationX * rotationY * rotationZ * scale

/-- `SceneManager::SetTransformations` (lines 439-468): build the model
matrix, then upload it as the "model" uniform when the shader manager
pointer is non-null. -/
def SetTransformations (cosd sind : ℚ → ℚ) (st : SMState) (scaleXYZ : Vec3)
    (XrotationDegrees YrotationDegrees ZrotationDegrees : ℚ)
    (positionXYZ : Vec3) : SMState :=
  let modelView := setTransformationsMatrix cosd sind scaleXYZ
    XrotationDegrees YrotationDegrees ZrotationDegrees positionXYZ
  if st.shaderPresent then
    { st with uniforms := setUniform st.uniforms "model" (UVal.m4 modelView) }
  else
    st

/-- The matrix `SetModelMatrix` builds (SceneManager.cpp lines 634-641):
the same five component matrices combined as
`translation * rotX * rotY * rotZ * scale`. -/
def setModelMatrixMatrix (cosd sind : ℚ → ℚ) (scaleXYZ : Vec3)
    (Xrot Yrot Zrot : ℚ) (positionXYZ : Vec3) : Mat4 :=
  let scale := glmScale scaleXYZ
  let rotX := glmRotate (cosd Xrot) (sind Xrot) ⟨1, 0, 0⟩
  let rotY := glmRotate (cosd Yrot) (sind Yrot) ⟨0, 1, 0⟩
  let rotZ := glmRotate (cosd Zrot) (sind Zrot) ⟨0, 0, 1⟩
  let translation := glmTranslate positionXYZ
  translation * rotX * rotY * rotZ * scale

/-- `SceneManager::SetModelMatrix` (lines 631-649): build the model matrix
and upload it as "model" on the main shader (when present) and on the depth
shader (when present). -/
def SetModelMatrix (cosd sind : ℚ → ℚ) (st : SMState) (scaleXYZ : Vec3)
    (Xrot Yrot Zrot : ℚ) (positionXYZ : Vec3) : SMState :=
  let model := setModelMatrixMatrix cosd sind scaleXYZ Xrot Yrot Zrot positionXYZ
  let st1 :=
    if st.shaderPresent then
      { st with uniforms := setUniform st.uniforms "model" (UVal.m4 model) }
    else
      st
  if st1.depthShaderPresent then
    { st1 with depthUniforms := setUniform st1.depthUniforms "model" (UVal.m4 model) }
  else
    st1

/-- `SceneManager::SetShaderColor` (lines 478-495): when the shader manager
pointer is non-null, set `bUseTexture` to false and `objectColor` to the
given RGBA value; otherwise do nothing. -/
def SetShaderColor (st : SMState)
    (redColorValue greenColorValue blueColorValue alphaValue : ℚ) : SMState :=
  let currentColor : Vec4 := ⟨redColorValue, greenColorValue, blueColorValue, alphaValue⟩
  if st.shaderPresent then
    let u1 := setUniform st.uniforms "bUseTexture" (UVal.b false)
    let u2 := setUniform u1 "objectColor" (UVal.v4 currentColor)
    { st with uniforms := u2 }
  else
    st

/-- Id stored in slot `i` of the texture array; slots beyond the occupied
prefix hold the constructor-initialized value `-1`
(SceneManager.cpp lines 207-213). -/
def slotID (slots : List TextureSlot) (i : ℤ) : ℤ :=
  (slots.getD i.toNat ⟨"/0", -1⟩).id

/-- `SceneManager::SetShaderTexture` (lines 505-520): when the shader manager
pointer is non-null, first set `bUseTexture` to true, then look the tag up;
only if a slot was found, activate its texture unit, bind its texture and
set the `objectTexture` sampler uniform to the slot index. -/
def SetShaderTexture (st : SMState) (textureTag : String) : SMState :=
  if st.shaderPresent then
    let st1 := { st with uniforms := setUniform st.uniforms "bUseTexture" (UVal.b true) }
    let slot := FindTextureSlot st1.textureIDs textureTag
    if slot ≥ 0 then
      { st1 with
        gl := ⟨slot, slotID st1.textureIDs slot⟩
        uniforms := setUniform st1.uniforms "objectTexture" (UVal.i slot) }
    else
      st1
  else
    st

/-- `SceneManager::SetTextureUVScale` (lines 530-536): when the shader
manager pointer is non-null, set the "UVscale" uniform. -/
def SetTextureUVScale (st : SMState) (u v : ℚ) : SMState :=
  if st.shaderPresent then
    { st with uniforms := setUniform st.uniforms "UVscale" (UVal.v2 ⟨u, v⟩) }
  else
    st

/-! ## Scene constants (SceneManager.cpp namespace SceneConstants) -/

namespace SceneConstants

def DESK_SCALE : Vec3 := ⟨38.0, 0.475, 23.75⟩
def DESK_POSITION : Vec3 := ⟨0.0, -0.5, -5.0⟩
def DESK_ROTATION : Vec3 := ⟨0.0, 0.0, 0.0⟩

def MUG_BODY_SCALE : Vec3 := ⟨0.575, 1.725, 0.575⟩
def MUG_BODY_POSITION : Vec3 := ⟨5.0, 0.75, -2.0⟩
def MUG_BODY_ROTATION : Vec3 := ⟨15.0, 20.0, 0.0⟩

def MUG_HANDLE_SCALE : Vec3 := ⟨0.36225, 0.36225, 0.36225⟩
def MUG_HANDLE_POSITION : Vec3 := ⟨5.5, 1.5, -2.0⟩
def MUG_HANDLE_ROTATION : Vec3 := ⟨0.0, 0.0, 90.0⟩

def LAPTOP_BASE_SCALE : Vec3 := ⟨6.6, 0.11, 4.4⟩
def LAPTOP_BASE_POSITION : Vec3 := ⟨0.0, 0.88, -0.55⟩
def LAPTOP_BASE_ROTATION : Vec3 := ⟨0.0, 0.0, 0.0⟩

def LAPTOP_SCREEN_SCALE : Vec3 := ⟨6.6, 3.3, 0.11⟩
def LAPTOP_SCREEN_POSITION : Vec3 := ⟨0.0, 1.76, -2.2⟩
def LAPTOP_SCREEN_ROTATION : Vec3 := ⟨-45.0, 0.0, 0.0⟩

def DISPLAY_PANEL_SCALE : Vec3 := ⟨6.05, 3.08, 0.055⟩
def DISPLAY_PANEL_POSITION : Vec3 := ⟨0.0, 1.76, -2.145⟩
def DISPLAY_PANEL_ROTATION : Vec3 := ⟨-45.0, 0.0, 0.0⟩

def LAMP_BASE_SCALE : Vec3 := ⟨1.0, 0.4, 1.0⟩
def LAMP_BASE_POSITION : Vec3 := ⟨-6.0, 0.2, 2.0⟩
def LAMP_BASE_ROTATION : Vec3 := ⟨0.0, 0.0, 0.0⟩

def LAMP_SHADE_SCALE : Vec3 := ⟨1.4, 1.2, 1.4⟩
def LAMP_SHADE_POSITION : Vec3 := ⟨-6.0, 2.5, 2.0⟩
def LAMP_SHADE_ROTATION : Vec3 := ⟨0.0, 0.0, 0.0⟩

def LAMP_STEM_SCALE : Vec3 := ⟨0.12, 2.8, 0.12⟩
def LAMP_STEM_POSITION : Vec3 := ⟨-6.0, 0.5, 2.0⟩
def LAMP_STEM_ROTATION : Vec3 := ⟨0.0, 0.0, 0.0⟩

def FLOOR_SCALE : Vec3 := ⟨62.4, 0.13, 32.5⟩
def FLOOR_POSITION : Vec3 := ⟨0.0, -5.0, -5.0⟩
def FLOOR_ROTATION : Vec3 := ⟨0.0, 0.0, 0.0⟩

def WALL_SCALE : Vec3 := ⟨62.4, 26.0, 0.65⟩
def WALL_POSITION_OFFSET : Vec3 := ⟨0.0, 0.0, -21.25⟩
def WALL_ROTATION : Vec3 := ⟨0.0, 0.0, 0.0⟩

def KEY_WIDTH : ℚ := 0.385
def KEY_HEIGHT : ℚ := 0.11
def KEY_DEPTH : ℚ := 0.33
def KEY_ROWS : ℕ := 5
def KEY_COLS : ℕ := 12
def KEY_SPACING : ℚ := 0.055
def KEY_START_X : ℚ := -2.31
def KEY_Y : ℚ := 0.902
def KEY_START_Z : ℚ := -1.1

def FLOOR_Y : ℚ := -5.0
def FLOOR_HEIGHT : ℚ := 0.13

end SceneConstants

/-! ## The two render passes as draw traces (RenderDepthPass / RenderScene)

Each pass is projected to the sequence of mesh draw calls it issues,
each paired with the transform arguments (scale, x/y/z rotation degrees,
position) passed to the matrix-upload call (`SetModelMatrix` in the depth
pass, `SetTransformations` in the lit pass) preceding that draw. -/

/-- The mesh primitive a draw call renders (the `ShapeMeshes::Draw*Mesh`
method invoked). -/
inductive MeshKind where
  | box
  | cylinder
  | cone
  | torus
  | plane
deriving DecidableEq, Repr

/-- The argument tuple of one transform upload: scale, rotation degrees
about X, Y, Z, and position. -/
structure TransformArgs where
  scale : Vec3
  xrot : ℚ
  yrot : ℚ
  zrot : ℚ
  position : Vec3
deriving DecidableEq, Repr

/-- One object draw: mesh kind plus the transform set for it. -/
abbrev DrawCall := MeshKind × TransformArgs

open SceneConstants in
/-- The keyboard-key grid loop (identical in RenderDepthPass lines 1016-1028
and DrawLaptop lines 1229-1248): for each row `r` and column `c`, a box of
size (KEY_WIDTH, KEY_HEIGHT, KEY_DEPTH), unrotated, at
`(KEY_START_X + c*(KEY_WIDTH+KEY_SPACING), KEY_Y, KEY_START_Z + r*(KEY_DEPTH+KEY_SPACING))`. -/
def keyboardKeyDraws : List DrawCall :=
  (List.range KEY_ROWS).flatMap fun r =>
    (List.range KEY_COLS).map fun c =>
      (MeshKind.box,
        ⟨⟨KEY_WIDTH, KEY_HEIGHT, KEY_DEPTH⟩, 0, 0, 0,
         ⟨KEY_START_X + (c : ℚ) * (KEY_WIDTH + KEY_SPACING), KEY_Y,
          KEY_START_Z + (r : ℚ) * (KEY_DEPTH + KEY_SPACING)⟩⟩)

open SceneConstants in
/-- The desk, mug-body and mug-handle draws, from the scene constants.
RenderDepthPass issues exactly this sequence first (lines 961-976), and
RenderScene issues the identical sequence through DrawDeskSurface
(lines 1126-1132) and DrawCoffeeMug (lines 1154-1172). -/
def deskMugDraws : List DrawCall :=
  [(MeshKind.box, ⟨DESK_SCALE, DESK_ROTATION.x, DESK_ROTATION.y, DESK_ROTATION.z, DESK_POSITION⟩),
   (MeshKind.cylinder, ⟨MUG_BODY_SCALE, MUG_BODY_ROTATION.x, MUG_BODY_ROTATION.y, MUG_BODY_ROTATION.z, MUG_BODY_POSITION⟩),
   (MeshKind.torus, ⟨MUG_HANDLE_SCALE, MUG_HANDLE_ROTATION.x, MUG_HANDLE_ROTATION.y, MUG_HANDLE_ROTATION.z, MUG_HANDLE_POSITION⟩)]

open SceneConstants in
/-- The lamp base, stem and shade draws, from the scene constants.
RenderDepthPass issues this sequence at lines 980-995, and DrawDeskLamp
(lines 1336-1362) issues the identical sequence in the lit pass. -/
def lampDraws : List DrawCall :=
  [(MeshKind.cylinder, ⟨LAMP_BASE_SCALE, LAMP_BASE_ROTATION.x, LAMP_BASE_ROTATION.y, LAMP_BASE_ROTATION.z, LAMP_BASE_POSITION⟩),
   (MeshKind.cylinder, ⟨LAMP_STEM_SCALE, LAMP_STEM_ROTATION.x, LAMP_STEM_ROTATION.y, LAMP_STEM_ROTATION.z, LAMP_STEM_POSITION⟩),
   (MeshKind.cone, ⟨LAMP_SHADE_SCALE, LAMP_SHADE_ROTATION.x, LAMP_SHADE_ROTATION.y, LAMP_SHADE_ROTATION.z, LAMP_SHADE_POSITION⟩)]

open SceneConstants in
/-- The laptop base, screen, display panel and the 60 keyboard keys, from
the scene constants.  RenderDepthPass issues this sequence at lines
998-1028, and DrawLaptop (lines 1196-1248) issues the identical sequence in
the lit pass. -/
def laptopDraws : List DrawCall :=
  [(MeshKind.box, ⟨LAPTOP_BASE_SCALE, LAPTOP_BASE_ROTATION.x, LAPTOP_BASE_ROTATION.y, LAPTOP_BASE_ROTATION.z, LAPTOP_BASE_POSITION⟩),
   (MeshKind.box, ⟨LAPTOP_SCREEN_SCALE, LAPTOP_SCREEN_ROTATION.x, LAPTOP_SCREEN_ROTATION.y, LAPTOP_SCREEN_ROTATION.z, LAPTOP_SCREEN_POSITION⟩),
   (MeshKind.box, ⟨DISPLAY_PANEL_SCALE, DISPLAY_PANEL_ROTATION.x, DISPLAY_PANEL_ROTATION.y, DISPLAY_PANEL_ROTATION.z, DISPLAY_PANEL_POSITION⟩)]
  ++ keyboardKeyDraws

open SceneConstants in
/-- The floor draw (RenderDepthPass lines 1031-1034; DrawFloor lines
1270-1277, identical constants). -/
def floorDraw : DrawCall :=
  (MeshKind.box, ⟨FLOOR_SCALE, FLOOR_ROTATION.x, FLOOR_ROTATION.y, FLOOR_ROTATION.z, FLOOR_POSITION⟩)

open SceneConstants in
/-- The wall draw as RenderDepthPass computes it (lines 1037-1042):
y-position `FLOOR_Y + FLOOR_HEIGHT/2 + WALL_SCALE.y/2`, x/z from
`WALL_POSITION_OFFSET`. -/
def wallDrawDepth : DrawCall :=
  (MeshKind.box, ⟨WALL_SCALE, WALL_ROTATION.x, WALL_ROTATION.y, WALL_ROTATION.z,
    ⟨WALL_POSITION_OFFSET.x, FLOOR_Y + FLOOR_HEIGHT / 2 + WALL_SCALE.y / 2, WALL_POSITION_OFFSET.z⟩⟩)

open SceneConstants in
/-- The wall draw as DrawBackground computes it (lines 1296-1311): scale
and x/z from local literals (62.4, 26.0, 0.65, -21.25), y-position
`FLOOR_Y + FLOOR_HEIGHT/2 + 26.0/2`. -/
def wallDrawLit : DrawCall :=
  (MeshKind.box, ⟨⟨62.4, 26.0, 0.65⟩, WALL_ROTATION.x, WALL_ROTATION.y, WALL_ROTATION.z,
    ⟨0.0, FLOOR_Y + FLOOR_HEIGHT / 2 + 26.0 / 2, -21.25⟩⟩)

/-- Draw trace of `SceneManager::RenderDepthPass` (lines 943-1048), in
source order: desk, mug body, mug handle, lamp base, lamp stem, lamp shade,
laptop base, laptop screen, display panel, the 60 keyboard keys, floor,
wall. -/
def depthPassDraws : List DrawCall :=
  deskMugDraws ++ lampDraws ++ laptopDraws ++ [floorDraw, wallDrawDepth]

/-- Draw trace of `SceneManager::RenderScene` (lines 1058-1106) through its
helpers, in source order: DrawDeskSurface, DrawCoffeeMug, DrawLaptop,
DrawDeskLamp, DrawFloor, DrawBackground. -/
def litPassDraws : List DrawCall :=
  deskMugDraws ++ laptopDraws ++ lampDraws ++ [floorDraw, wallDrawLit]

/-! ## Fragment shader (src/Utilities/shaders/fragmentShader.glsl) -/

/-- GLSL `PointLight` struct (fragmentShader.glsl lines 11-21). -/
structure PointLight where
  position : Vec3
  ambientColor : Vec3
  diffuseColor : Vec3
  specularColor : Vec3
  focalStrength : ℚ
  specularIntensity : ℚ
  spotDirection : Vec3
  cutoff : ℚ
  outerCutoff : ℚ

/-- GLSL `Material` struct (fragmentShader.glsl lines 3-9). -/
structure GlslMaterial where
  ambientColor : Vec3
  ambientStrength : ℚ
  diffuseColor : Vec3
  specularColor : Vec3
  shininess : ℚ

/-- All inputs of one fragment-shader invocation: the uniforms and the
interpolated vertex outputs (fragmentShader.glsl lines 23-37). -/
structure FragmentInputs where
  bUseTexture : Bool
  bUseLighting : Bool
  objectColor : Vec4
  viewPosition : Vec3
  UVscale : Vec2
  lightSources : Fin 8 → PointLight
  material : GlslMaterial
  numActiveLights : ℤ
  fragmentPosition : Vec3
  fragmentVertexNormal : Vec3
  fragmentTextureCoordinate : Vec2

/-- `main` of fragmentShader.glsl (lines 39-66).  The GPU implementations of
`normalize` and of the `objectTexture` sampler are abstracted as the
parameters `normalize3` and `texSample` (the sampled texel for a
coordinate).  Returns `outFragmentColor`. -/
def fragmentMain (normalize3 : Vec3 → Vec3) (texSample : Vec2 → Vec4)
    (inp : FragmentInputs) : Vec4 :=
  if inp.bUseLighting ∧ inp.numActiveLights > 0 then
    let normal := normalize3 inp.fragmentVertexNormal
    let light := inp.lightSources 0
    let lightDir := normalize3 (vsub light.position inp.fragmentPosition)
    let intensity := max (vdot normal lightDir) 0
    let result : Vec3 := ⟨intensity, intensity * 0.9, intensity * 0.1⟩
    if inp.bUseTexture then
      let texColor := texSample (v2mul inp.fragmentTextureCoordinate inp.UVscale)
      let rgb := vmul result ⟨texColor.x, texColor.y, texColor.z⟩
      ⟨rgb.x, rgb.y, rgb.z, texColor.w⟩
    else
      let rgb := vmul result ⟨inp.objectColor.x, inp.objectColor.y, inp.objectColor.z⟩
      ⟨rgb.x, rgb.y, rgb.z, inp.objectColor.w⟩
  else
    if inp.bUseTexture then
      texSample (v2mul inp.fragmentTextureCoordinate inp.UVscale)
    else
      inp.objectColor

/-! ## ShaderManager::LoadShaders (src/Utilities/ShaderManager.cpp) -/

/-- Observable outcome of one `ShaderManager::LoadShaders` call. -/
structure LoadShadersResult where
  /-- The function's return value. -/
  ret : ℤ
  /-- Whether `glCreateProgram` was reached. -/
  programCreated : Bool
  /-- The fragment source handed to `glShaderSource`, `none` when compilation
  was never reached. -/
  compiledFragmentSource : Option String

/-- `ShaderManager::LoadShaders` (ShaderManager.cpp lines 23-137), with the
file system abstracted: `vertexFile`/`fragmentFile` are the contents of the
two files when they can be opened, `none` otherwise; `newProgramID` is the
id `glCreateProgram` would return.  When the vertex file cannot be opened
the function returns 0 before any compilation or program creation; when only
the fragment file cannot be opened, `FragmentShaderCode` keeps its
empty-string initial value and the function compiles, links and returns the
new program id. -/
def LoadShaders (vertexFile fragmentFile : Option String)
    (newProgramID : ℤ) : LoadShadersResult :=
  match vertexFile with
  | none => ⟨0, false, none⟩
  | some _ =>
    let fragmentShaderCode :=
      match fragmentFile with
      | some code => code
      | none => ""
    ⟨newProgramID, true, some fragmentShaderCode⟩

/-! ## PrepareScene shadow-framebuffer completeness check -/

/-- The GL framebuffer commands PrepareScene issues (lines 884-893), in
order, after the depth texture is configured. -/
inductive FBCommand where
  | bindFramebuffer (fb : ℤ)
  | framebufferTexture2D
  | drawBufferNone
  | readBufferNone
  | checkFramebufferStatus
deriving DecidableEq, Repr

/-- The framebuffer-binding trace of PrepareScene lines 884-893:
bind the shadow FBO, attach the depth texture, disable draw/read buffers,
rebind the default framebuffer 0, then call `glCheckFramebufferStatus`. -/
def prepareSceneFBCommands (shadowMapFBO : ℤ) : List FBCommand :=
  [FBCommand.bindFramebuffer shadowMapFBO,
   FBCommand.framebufferTexture2D,
   FBCommand.drawBufferNone,
   FBCommand.readBufferNone,
   FBCommand.bindFramebuffer 0,
   FBCommand.checkFramebufferStatus]

/-- Run a framebuffer command list: track the currently bound
`GL_FRAMEBUFFER` (`bound`, initially the default framebuffer 0) and record
which framebuffer is bound when `glCheckFramebufferStatus(GL_FRAMEBUFFER)`
runs; per the GL specification that call reports the status of the
framebuffer currently bound to the given target. -/
def runFBCommands : List FBCommand → ℤ → Option ℤ → Option ℤ
  | [], _, checked => checked
  | cmd :: rest, bound, checked =>
    match cmd with
    | .bindFramebuffer fb => runFBCommands rest fb checked
    | .checkFramebufferStatus =>
      runFBCommands rest bound (match checked with | none => some bound | some c => some c)
    | _ => runFBCommands rest bound checked

/-- The framebuffer whose status PrepareScene's completeness check reads. -/
def prepareSceneCheckedFramebuffer (shadowMapFBO : ℤ) : Option ℤ :=
  runFBCommands (prepareSceneFBCommands shadowMapFBO) 0 none

/-- Whether PrepareScene prints the "Shadow map framebuffer is not
complete!" diagnostic, given which framebuffers are complete
(`complete fb = true` when framebuffer `fb` would report
`GL_FRAMEBUFFER_COMPLETE`): the source emits it exactly when the status
call does not return `GL_FRAMEBUFFER_COMPLETE` (line 891). -/
def prepareSceneEmitsFBDiagnostic (complete : ℤ → Bool) (shadowMapFBO : ℤ) : Bool :=
  match prepareSceneCheckedFramebuffer shadowMapFBO with
  | none => false
  | some fb => ! complete fb

/-! ## Spec-side transform matrices

Written from the specification's words ("the matrix
`Translate(T) * RotateX(rx) * RotateY(ry) * RotateZ(rz) * Scale(S)`"),
with the textbook closed forms of the four elementary transforms, to be
compared with what the code builds through `glm`. -/

/-- Textbook scaling matrix `Scale(S)`. -/
def specScale (s : Vec3) : Mat4 :=
  !![s.x, 0, 0, 0;
     0, s.y, 0, 0;
     0, 0, s.z, 0;
     0, 0, 0, 1]

/-- Textbook translation matrix `Translate(T)`. -/
def specTranslate (t : Vec3) : Mat4 :=
  !![1, 0, 0, t.x;
     0, 1, 0, t.y;
     0, 0, 1, t.z;
     0, 0, 0, 1]

/-- Textbook rotation about the X axis with cosine `c` and sine `s`. -/
def specRotateX (c s : ℚ) : Mat4 :=
  !![1, 0, 0, 0;
     0, c, -s, 0;
     0, s, c, 0;
     0, 0, 0, 1]

/-- Textbook rotation about the Y axis with cosine `c` and sine `s`. -/
def specRotateY (c s : ℚ) : Mat4 :=
  !![c, 0, s, 0;
     0, 1, 0, 0;
     -s, 0, c, 0;
     0, 0, 0, 1]

/-- Textbook rotation about the Z axis with cosine `c` and sine `s`. -/
def specRotateZ (c s : ℚ) : Mat4 :=
  !![c, -s, 0, 0;
     s, c, 0, 0;
     0, 0, 1, 0;
     0, 0, 0, 1]

/-- The model matrix the specification prescribes:
`Translate(T) * RotateX(rx) * RotateY(ry) * RotateZ(rz) * Scale(S)`,
rotation angles given in degrees. -/
def specModelMatrix (cosd sind : ℚ → ℚ) (S : Vec3) (rx ry rz : ℚ) (T : Vec3) : Mat4 :=
  specTranslate T * specRotateX (cosd rx) (sind rx) * specRotateY (cosd ry) (sind ry) *
    specRotateZ (cosd rz) (sind rz) * specScale S

/-- glm's general axis-angle rotation, instantiated at the unit X axis,
is the textbook X rotation. -/
theorem glmRotate_unitX (c s : ℚ) : glmRotate c s ⟨1, 0, 0⟩ = specRotateX c s := by
  unfold glmRotate specRotateX
  ext i j
  fin_cases i <;> fin_cases j <;> simp [Matrix.vecHead, Matrix.vecTail]

/-- glm's general axis-angle rotation, instantiated at the unit Y axis,
is the textbook Y rotation. -/
theorem glmRotate_unitY (c s : ℚ) : glmRotate c s ⟨0, 1, 0⟩ = specRotateY c s := by
  unfold glmRotate specRotateY
  ext i j
  fin_cases i <;> fin_cases j <;> simp [Matrix.vecHead, Matrix.vecTail]

/-- glm's general axis-angle rotation, instantiated at the unit Z axis,
is the textbook Z rotation. -/
theorem glmRotate_unitZ (c s : ℚ) : glmRotate c s ⟨0, 0, 1⟩ = specRotateZ c s := by
  unfold glmRotate specRotateZ
  ext i j
  fin_cases i <;> fin_cases j <;> simp [Matrix.vecHead, Matrix.vecTail]

/-- The matrix `SetTransformations` builds coincides with the
specification's composition. -/
theorem setTransformationsMatrix_eq_spec (cosd sind : ℚ → ℚ) (S : Vec3)
    (rx ry rz : ℚ) (T : Vec3) :
    setTransformationsMatrix cosd sind S rx ry rz T = specModelMatrix cosd sind S rx ry rz T := by
  simp only [setTransformationsMatrix, specModelMatrix,
    glmRotate_unitX, glmRotate_unitY, glmRotate_unitZ]
  rfl

/-- `SetModelMatrix` builds the same matrix as `SetTransformations` (the
two method bodies perform the identical construction). -/
theorem setModelMatrixMatrix_eq_setTransformationsMatrix :
    setModelMatrixMatrix = setTransformationsMatrix :=
  rfl

/-! ## Registry lemmas for lookup after a sequence of loads -/

/-- Whether `CreateGLTexture` accepts an image: the file decoded and has
3 or 4 channels. -/
def imageAccepted : ImageLoad → Bool
  | .fail => false
  | .ok _ _ channels => channels == 3 || channels == 4

/-- `CreateGLTexture` returns success exactly on accepted images and then
appends the one new slot; otherwise it leaves the registry unchanged. -/
theorem CreateGLTexture_eq (img : ImageLoad) (textureID : ℤ) (tag : String)
    (slots : List TextureSlot) :
    CreateGLTexture img textureID tag slots =
      if imageAccepted img then (true, slots ++ [⟨tag, textureID⟩]) else (false, slots) := by
  cases img with
  | fail => rfl
  | ok w h ch =>
    by_cases h3 : ch = 3
    · simp [CreateGLTexture, imageAccepted, h3]
    · by_cases h4 : ch = 4 <;> simp [CreateGLTexture, imageAccepted, h3, h4]

/-- One `CreateGLTexture` call as made during scene preparation: the image
the file system yields, the id `glGenTextures` yields, and the tag. -/
structure TexCall where
  img : ImageLoad
  textureID : ℤ
  tag : String

/-- Registry contents after a sequence of `CreateGLTexture` calls starting
from registry state `slots`. -/
def runCreateCalls (calls : List TexCall) (slots : List TextureSlot) : List TextureSlot :=
  calls.foldl (fun s c => (CreateGLTexture c.img c.textureID c.tag s).2) slots

/-- The slots the successful calls of a sequence insert, in call order. -/
def successfulSlots (calls : List TexCall) : List TextureSlot :=
  calls.filterMap fun c =>
    if imageAccepted c.img then some ⟨c.tag, c.textureID⟩ else none

/-- Running a call sequence appends exactly the successful calls' slots. -/
theorem runCreateCalls_eq (calls : List TexCall) :
    ∀ slots : List TextureSlot,
      runCreateCalls calls slots = slots ++ successfulSlots calls := by
  induction calls with
  | nil => intro slots; simp [runCreateCalls, successfulSlots]
  | cons c cs ih =>
    intro slots
    by_cases hc : imageAccepted c.img
    · simp [runCreateCalls, successfulSlots, CreateGLTexture_eq, hc] at ih ⊢
      have h := ih (slots ++ [(⟨c.tag, c.textureID⟩ : TextureSlot)])
      rw [h, List.append_assoc]
      rfl
    · simp [runCreateCalls, successfulSlots, CreateGLTexture_eq, hc] at ih ⊢
      simpa using ih slots

/-- The tags of the successful slots form a sublist of the call tags. -/
theorem successfulSlots_tags_sublist (calls : List TexCall) :
    ((successfulSlots calls).map TextureSlot.tag).Sublist (calls.map TexCall.tag) := by
  induction calls with
  | nil => simp [successfulSlots]
  | cons c cs ih =>
    by_cases hc : imageAccepted c.img
    · simpa [successfulSlots, hc] using ih.cons₂ c.tag
    · simpa [successfulSlots, hc] using ih.cons c.tag

/-- A scan that finds no match returns `-1` (slot variant). -/
theorem findTextureSlotAux_not_found :
    ∀ (reg : List TextureSlot) (tag : String) (i : ℤ),
      (∀ s ∈ reg, s.tag ≠ tag) → findTextureSlotAux reg tag i = -1
  | [], _, _, _ => rfl
  | s0 :: rest, tag, i, h => by
    have h0 : s0.tag ≠ tag := h s0 (List.mem_cons_self s0 rest)
    simp only [findTextureSlotAux, if_neg h0]
    exact findTextureSlotAux_not_found rest tag (i + 1)
      fun s hs => h s (List.mem_cons_of_mem s0 hs)

/-- A scan that finds no match returns `-1` (id variant). -/
theorem findTextureIDAux_not_found :
    ∀ (reg : List TextureSlot) (tag : String),
      (∀ s ∈ reg, s.tag ≠ tag) → findTextureIDAux reg tag = -1
  | [], _, _ => rfl
  | s0 :: rest, tag, h => by
    have h0 : s0.tag ≠ tag := h s0 (List.mem_cons_self s0 rest)
    simp only [findTextureIDAux, if_neg h0]
    exact findTextureIDAux_not_found rest tag
      fun s hs => h s (List.mem_cons_of_mem s0 hs)

/-- When the registry's tags are pairwise distinct and slot `k` holds `s`,
the slot scan started at offset `i` returns `i + k`. -/
theorem findTextureSlotAux_get :
    ∀ (reg : List TextureSlot) (k : ℕ) (s : TextureSlot) (i : ℤ),
      (reg.map TextureSlot.tag).Nodup → reg[k]? = some s →
      findTextureSlotAux reg s.tag i = i + k
  | [], k, _, _, _, h => by simp at h
  | s0 :: rest, 0, s, i, _, h => by
    simp only [List.getElem?_cons_zero, Option.some_inj] at h
    subst h
    simp [findTextureSlotAux]
  | s0 :: rest, k + 1, s, i, hnd, h => by
    simp only [List.getElem?_cons_succ] at h
    have hmem : s ∈ rest := by
      have := List.getElem?_eq_some.mp h
      exact this.choose_spec ▸ List.getElem_mem this.choose
    have hne : s0.tag ≠ s.tag := by
      intro heq
      have : s0.tag ∈ rest.map TextureSlot.tag := heq ▸ List.mem_map_of_mem TextureSlot.tag hmem
      exact (List.nodup_cons.mp (by simpa using hnd)).1 this
    have ih := findTextureSlotAux_get rest k s (i + 1)
      (List.nodup_cons.mp (by simpa using hnd)).2 h
    simp only [findTextureSlotAux, if_neg hne, ih]
    push_cast
    ring

/-- When the registry's tags are pairwise distinct and slot `k` holds `s`,
the id scan returns the id stored in `s`. -/
theorem findTextureIDAux_get :
    ∀ (reg : List TextureSlot) (k : ℕ) (s : TextureSlot),
      (reg.map TextureSlot.tag).Nodup → reg[k]? = some s →
      findTextureIDAux reg s.tag = s.id
  | [], k, _, _, h => by simp at h
  | s0 :: rest, 0, s, _, h => by
    simp only [List.getElem?_cons_zero, Option.some_inj] at h
    subst h
    simp [findTextureIDAux]
  | s0 :: rest, k + 1, s, hnd, h => by
    simp only [List.getElem?_cons_succ] at h
    have hmem : s ∈ rest := by
      have := List.getElem?_eq_some.mp h
      exact this.choose_spec ▸ List.getElem_mem this.choose
    have hne : s0.tag ≠ s.tag := by
      intro heq
      have : s0.tag ∈ rest.map TextureSlot.tag := heq ▸ List.mem_map_of_mem TextureSlot.tag hmem
      exact (List.nodup_cons.mp (by simpa using hnd)).1 this
    have ih := findTextureIDAux_get rest k s
      (List.nodup_cons.mp (by simpa using hnd)).2 h
    simp only [findTextureIDAux, if_neg hne, ih]

/-! ## Sample states used by closed evaluation theorems and witnesses -/

/-- A uniform store with nothing written. -/
def emptyUniforms : Uniforms := fun _ => none

/-- A SceneManager state with a null shader-manager pointer. -/
def nullShaderState : SMState :=
  { shaderPresent := false, uniforms := emptyUniforms, depthShaderPresent := false,
    depthUniforms := emptyUniforms, gl := ⟨0, 0⟩, textureIDs := [], objectMaterials := [] }

/-- A SceneManager state with a live main shader and an empty registry. -/
def mainShaderState : SMState :=
  { nullShaderState with shaderPresent := true }

/-- A uniform store holding only `bUseTexture = false`. -/
def loneUniform : Uniforms :=
  fun n => if n = "bUseTexture" then some (UVal.b false) else none

/-- A SceneManager state whose shader has `bUseTexture = false` written and
whose texture registry is empty. -/
def texDemoState : SMState :=
  { mainShaderState with uniforms := loneUniform }

/-- The desk material as PrepareScene inserts it (lines 696-703). -/
def sampleDeskMaterial : ObjectMaterial :=
  ⟨"deskTexture", ⟨1.0, 0.9, 0.7⟩, 0.3, ⟨1.0, 0.9, 0.6⟩, ⟨0.5, 0.5, 0.5⟩, 32.0⟩

/-- A zeroed output-parameter value for `FindMaterial`. -/
def sampleOutMaterial : ObjectMaterial :=
  ⟨"", ⟨0, 0, 0⟩, 0, ⟨0, 0, 0⟩, ⟨0, 0, 0⟩, 0⟩

/-! ## Claim theorems -/

/-- C1: `FindMaterial(tag, out)` is claimed to return `false` when no stored
material has the tag.  The code instead returns `true` for every non-empty
materials list: with the single desk material stored and the absent tag
"mugTex", the call returns `true` and leaves the output parameter
untouched, contradicting the claim (and the function's own comment
"Returns true if material found"); the first conjunct records that no
stored material carries the queried tag. -/
theorem findMaterial_true_without_match :
    ([sampleDeskMaterial].filter (fun m => m.tag == "mugTex")) = [] ∧
    FindMaterial [sampleDeskMaterial] "mugTex" sampleOutMaterial =
      (true, sampleOutMaterial) := by
  constructor
  · rfl
  · rfl

/-- C2: the depth pass and the lit pass draw the same objects (the two draw
traces are permutations of each other), the matrix-building functions the
two passes use (`SetModelMatrix` in the depth pass, `SetTransformations` in
the lit pass) build the identical matrix for identical transform arguments,
and within `SetModelMatrix` the matrix written to the depth shader's
"model" uniform is the very value written to the main shader's "model"
uniform. -/
theorem depth_lit_pass_symmetry :
    depthPassDraws.Perm litPassDraws ∧
    (∀ (cosd sind : ℚ → ℚ), ∀ d ∈ depthPassDraws,
      setModelMatrixMatrix cosd sind d.2.scale d.2.xrot d.2.yrot d.2.zrot d.2.position =
        setTransformationsMatrix cosd sind d.2.scale d.2.xrot d.2.yrot d.2.zrot d.2.position) ∧
    (∀ (cosd sind : ℚ → ℚ) (st : SMState) (scaleXYZ : Vec3) (rx ry rz : ℚ)
      (positionXYZ : Vec3),
      st.shaderPresent = true → st.depthShaderPresent = true →
      (SetModelMatrix cosd sind st scaleXYZ rx ry rz positionXYZ).depthUniforms "model" =
        (SetModelMatrix cosd sind st scaleXYZ rx ry rz positionXYZ).uniforms "model") := by
  refine ⟨?_, ?_, ?_⟩
  · have hwall : wallDrawDepth = wallDrawLit := rfl
    unfold depthPassDraws litPassDraws
    rw [hwall]
    refine List.Perm.append_right _ ?_
    rw [List.append_assoc, List.append_assoc]
    exact List.Perm.append_left _ List.perm_append_comm
  · intro cosd sind d _
    rfl
  · intro cosd sind st scaleXYZ rx ry rz positionXYZ hp hd
    simp [SetModelMatrix, hp, hd, setUniform]

/-- Witness for C2: the desk draw call appears in the depth-pass trace and
the two matrix builders agree on its transform. -/
theorem depth_lit_pass_symmetry_witness :
    setModelMatrixMatrix (fun _ => 1) (fun _ => 0) SceneConstants.DESK_SCALE
        SceneConstants.DESK_ROTATION.x SceneConstants.DESK_ROTATION.y
        SceneConstants.DESK_ROTATION.z SceneConstants.DESK_POSITION =
      setTransformationsMatrix (fun _ => 1) (fun _ => 0) SceneConstants.DESK_SCALE
        SceneConstants.DESK_ROTATION.x SceneConstants.DESK_ROTATION.y
        SceneConstants.DESK_ROTATION.z SceneConstants.DESK_POSITION :=
  depth_lit_pass_symmetry.2.1 (fun _ => 1) (fun _ => 0)
    (MeshKind.box, ⟨SceneConstants.DESK_SCALE, SceneConstants.DESK_ROTATION.x,
      SceneConstants.DESK_ROTATION.y, SceneConstants.DESK_ROTATION.z,
      SceneConstants.DESK_POSITION⟩)
    (by simp [depthPassDraws, deskMugDraws])

/-- C3: with a live shader manager, `SetTransformations` writes to the
"model" uniform exactly the specification's matrix
`Translate(T) * RotateX(rx) * RotateY(ry) * RotateZ(rz) * Scale(S)`, and
`SetModelMatrix` computes the same matrix. -/
theorem setTransformations_uploads_spec_matrix (cosd sind : ℚ → ℚ) (st : SMState)
    (h : st.shaderPresent = true) (scaleXYZ : Vec3) (rx ry rz : ℚ)
    (positionXYZ : Vec3) :
    (SetTransformations cosd sind st scaleXYZ rx ry rz positionXYZ).uniforms "model" =
      some (UVal.m4 (specModelMatrix cosd sind scaleXYZ rx ry rz positionXYZ)) ∧
    setModelMatrixMatrix cosd sind scaleXYZ rx ry rz positionXYZ =
      specModelMatrix cosd sind scaleXYZ rx ry rz positionXYZ := by
  constructor
  · simp [SetTransformations, h, setUniform, setTransformationsMatrix_eq_spec]
  · rw [setModelMatrixMatrix_eq_setTransformationsMatrix]
    exact setTransformationsMatrix_eq_spec cosd sind scaleXYZ rx ry rz positionXYZ

/-- Witness for C3 at a concrete state and transform. -/
theorem setTransformations_uploads_spec_matrix_witness :
    (SetTransformations (fun _ => 1) (fun _ => 0) mainShaderState
        ⟨2, 3, 4⟩ 0 0 0 ⟨5, 6, 7⟩).uniforms "model" =
      some (UVal.m4 (specModelMatrix (fun _ => 1) (fun _ => 0) ⟨2, 3, 4⟩ 0 0 0 ⟨5, 6, 7⟩)) :=
  (setTransformations_uploads_spec_matrix (fun _ => 1) (fun _ => 0) mainShaderState
    rfl ⟨2, 3, 4⟩ 0 0 0 ⟨5, 6, 7⟩).1

/-- C4: when lighting is on and at least one light is active, the fragment
shader outputs the warm-tinted single-light diffuse term
`(intensity, 0.9*intensity, 0.1*intensity)` times the texture or object
color, with `intensity = max(dot(normalize(normal), normalize(light0.pos -
fragPos)), 0)`; otherwise it passes the texture or color through; and the
output depends on the light array only through `lightSources[0].position`
(and on no material or view-position field at all). -/
theorem fragmentShader_first_light_diffuse_only (normalize3 : Vec3 → Vec3)
    (texSample : Vec2 → Vec4) (inp : FragmentInputs) :
    (inp.bUseLighting = true → inp.numActiveLights > 0 →
      fragmentMain normalize3 texSample inp =
        (let intensity := max (vdot (normalize3 inp.fragmentVertexNormal)
            (normalize3 (vsub (inp.lightSources 0).position inp.fragmentPosition))) 0
         let base := if inp.bUseTexture then
             texSample (v2mul inp.fragmentTextureCoordinate inp.UVscale)
           else inp.objectColor
         ⟨intensity * base.x, intensity * 0.9 * base.y, intensity * 0.1 * base.z, base.w⟩)) ∧
    (inp.bUseLighting = false ∨ inp.numActiveLights ≤ 0 →
      fragmentMain normalize3 texSample inp =
        if inp.bUseTexture then
          texSample (v2mul inp.fragmentTextureCoordinate inp.UVscale)
        else inp.objectColor) ∧
    (∀ (lights : Fin 8 → PointLight) (mat : GlslMaterial) (viewPos : Vec3),
      (lights 0).position = (inp.lightSources 0).position →
      fragmentMain normalize3 texSample
          { inp with lightSources := lights, material := mat, viewPosition := viewPos } =
        fragmentMain normalize3 texSample inp) := by
  refine ⟨?_, ?_, ?_⟩
  · intro h1 h2
    by_cases ht : inp.bUseTexture <;>
      simp [fragmentMain, h1, h2, ht, vmul, mul_comm, mul_assoc, mul_left_comm]
  · intro h
    have hcond : ¬(inp.bUseLighting = true ∧ inp.numActiveLights > 0) := by
      rcases h with h | h
      · simp [h]
      · intro hc
        omega
    by_cases ht : inp.bUseTexture <;> simp [fragmentMain, hcond, ht]
  · intro lights mat viewPos hpos
    simp [fragmentMain, hpos]

/-- Witness for C4: the pass-through branch at a concrete input. -/
theorem fragmentShader_first_light_diffuse_only_witness :
    fragmentMain (fun v => v) (fun _ => ⟨1, 1, 1, 1⟩)
        { bUseTexture := false, bUseLighting := false, objectColor := ⟨0.2, 0.3, 0.4, 1⟩,
          viewPosition := ⟨0, 0, 0⟩, UVscale := ⟨1, 1⟩,
          lightSources := fun _ => ⟨⟨0, 9, 0⟩, ⟨0, 0, 0⟩, ⟨0, 0, 0⟩, ⟨0, 0, 0⟩, 0, 0,
            ⟨0, -1, 0⟩, 0, 0⟩,
          material := ⟨⟨1, 1, 1⟩, 0, ⟨1, 1, 1⟩, ⟨1, 1, 1⟩, 1⟩, numActiveLights := 2,
          fragmentPosition := ⟨0, 0, 0⟩, fragmentVertexNormal := ⟨0, 1, 0⟩,
          fragmentTextureCoordinate := ⟨0, 0⟩ } =
      ⟨0.2, 0.3, 0.4, 1⟩ :=
  (fragmentShader_first_light_diffuse_only (fun v => v) (fun _ => ⟨1, 1, 1, 1⟩) _).2.1
    (Or.inl rfl)

/-- C5 counterexample: `SetShaderTexture` with an unknown tag is not a
no-op on the shader uniforms: starting from a state whose `bUseTexture`
uniform is `false` and whose registry is empty, the call flips that uniform
to `true` before discovering the tag is absent. -/
theorem setShaderTexture_missing_tag_not_uniform_noop :
    FindTextureSlot texDemoState.textureIDs "mugTex" = -1 ∧
    texDemoState.uniforms "bUseTexture" = some (UVal.b false) ∧
    (SetShaderTexture texDemoState "mugTex").uniforms "bUseTexture" =
      some (UVal.b true) := by
  exact ⟨rfl, rfl, rfl⟩

/-- C5 as amended: for a tag absent from the registry, `SetShaderTexture`
leaves the active texture unit, the bound texture, the registry and every
uniform other than `bUseTexture` unchanged; `bUseTexture` itself is still
set to `true` whenever the shader manager is present. -/
theorem setShaderTexture_missing_tag_amended (st : SMState) (textureTag : String)
    (h : ∀ s ∈ st.textureIDs, s.tag ≠ textureTag) :
    (SetShaderTexture st textureTag).gl = st.gl ∧
    (SetShaderTexture st textureTag).textureIDs = st.textureIDs ∧
    (∀ n : String, n ≠ "bUseTexture" →
      (SetShaderTexture st textureTag).uniforms n = st.uniforms n) ∧
    (st.shaderPresent = true →
      (SetShaderTexture st textureTag).uniforms "bUseTexture" = some (UVal.b true)) := by
  have hslot : FindTextureSlot st.textureIDs textureTag = -1 :=
    findTextureSlotAux_not_found _ _ _ h
  by_cases hp : st.shaderPresent
  · refine ⟨?_, ?_, ?_, ?_⟩
    · simp [SetShaderTexture, hp, hslot]
    · simp [SetShaderTexture, hp, hslot]
    · intro n hn
      simp [SetShaderTexture, hp, hslot, setUniform, hn]
    · intro _
      simp [SetShaderTexture, hp, hslot, setUniform]
  · refine ⟨?_, ?_, ?_, ?_⟩
    · simp [SetShaderTexture, hp]
    · simp [SetShaderTexture, hp]
    · intro n hn
      simp [SetShaderTexture, hp]
    · intro hc
      rw [hc] at hp
      exact absurd rfl hp

/-- Witness for the amended C5 at a concrete state and tag. -/
theorem setShaderTexture_missing_tag_amended_witness :
    (SetShaderTexture texDemoState "mugTex").gl = texDemoState.gl :=
  (setShaderTexture_missing_tag_amended texDemoState "mugTex" (by simp [texDemoState, mainShaderState, nullShaderState])).1

/-- C6: `CreateGLTexture` fails exactly on an unreadable image or a channel
count other than 3 or 4; every failure leaves the registry (slot list and
count) unchanged; success appends exactly one slot holding the tag and
raises the count by one. -/
theorem createGLTexture_error_handling (img : ImageLoad) (textureID : ℤ)
    (tag : String) (slots : List TextureSlot) :
    ((CreateGLTexture img textureID tag slots).1 = false ↔
      img = ImageLoad.fail ∨
        ∃ w h ch, img = ImageLoad.ok w h ch ∧ ch ≠ 3 ∧ ch ≠ 4) ∧
    ((CreateGLTexture img textureID tag slots).1 = false →
      (CreateGLTexture img textureID tag slots).2 = slots) ∧
    ((CreateGLTexture img textureID tag slots).1 = true →
      (CreateGLTexture img textureID tag slots).2 = slots ++ [⟨tag, textureID⟩] ∧
      (CreateGLTexture img textureID tag slots).2.length = slots.length + 1) := by
  rcases img with _ | ⟨w, hh, ch⟩
  · simp [CreateGLTexture]
  · by_cases h3 : ch = 3
    · subst h3
      simp [CreateGLTexture]
    · by_cases h4 : ch = 4
      · subst h4
        simp [CreateGLTexture]
      · simp only [CreateGLTexture, if_neg h3, if_neg h4]
        exact ⟨⟨fun _ => Or.inr ⟨w, hh, ch, rfl, h3, h4⟩, fun _ => trivial⟩,
          fun _ => trivial, fun hcontr => by simp at hcontr⟩

/-- Witness for C6: a 5-channel image is rejected and the registry stays
empty. -/
theorem createGLTexture_error_handling_witness :
    (CreateGLTexture (ImageLoad.ok 2 2 5) 9 "t" []).2 = ([] : List TextureSlot) :=
  (createGLTexture_error_handling (ImageLoad.ok 2 2 5) 9 "t" []).2.1 rfl

/-- C7: after a sequence of `CreateGLTexture` calls with pairwise-distinct
tags (and at most 16 successes, the registry's capacity), the tag of the
k-th successful call resolves through `FindTextureSlot` to slot `k` and
through `FindTextureID` to the id stored by that call, and a tag no
successful call used resolves to `-1` in both. -/
theorem textureRegistry_lookup_after_loads (calls : List TexCall)
    (hdist : (calls.map TexCall.tag).Nodup)
    (_hcap : (successfulSlots calls).length ≤ 16) :
    (∀ (k : ℕ) (t : String) (id : ℤ), (successfulSlots calls)[k]? = some ⟨t, id⟩ →
      FindTextureSlot (runCreateCalls calls []) t = k ∧
      FindTextureID (runCreateCalls calls []) t = id) ∧
    (∀ t : String, (∀ s ∈ successfulSlots calls, s.tag ≠ t) →
      FindTextureSlot (runCreateCalls calls []) t = -1 ∧
      FindTextureID (runCreateCalls calls []) t = -1) := by
  have hreg : runCreateCalls calls [] = successfulSlots calls := by
    simpa using runCreateCalls_eq calls []
  have hnd : ((successfulSlots calls).map TextureSlot.tag).Nodup :=
    (successfulSlots_tags_sublist calls).nodup hdist
  constructor
  · intro k t id h
    rw [hreg]
    constructor
    · have := findTextureSlotAux_get (successfulSlots calls) k ⟨t, id⟩ 0 hnd h
      simpa [FindTextureSlot] using this
    · have := findTextureIDAux_get (successfulSlots calls) k ⟨t, id⟩ hnd h
      simpa [FindTextureID] using this
  · intro t h
    rw [hreg]
    exact ⟨findTextureSlotAux_not_found _ _ _ h, findTextureIDAux_not_found _ _ h⟩

/-- A three-call load sequence: a 3-channel success, a failed load, a
4-channel success. -/
def sampleCalls : List TexCall :=
  [⟨ImageLoad.ok 4 4 3, 7, "deskTexture"⟩,
   ⟨ImageLoad.fail, 8, "laptopTex"⟩,
   ⟨ImageLoad.ok 2 2 4, 9, "mugTex"⟩]

/-- Witness for C7: in the sample sequence the second successful call's tag
"mugTex" resolves to slot 1 and id 9. -/
theorem textureRegistry_lookup_after_loads_witness :
    FindTextureSlot (runCreateCalls sampleCalls []) "mugTex" = 1 ∧
    FindTextureID (runCreateCalls sampleCalls []) "mugTex" = 9 :=
  (textureRegistry_lookup_after_loads sampleCalls (by decide) (by decide)).1
    1 "mugTex" 9 rfl

/-- C8: `PrepareScene` rebinds the default framebuffer (0) before its
completeness check, so the check always reads the default framebuffer's
status, never the shadow framebuffer's, and with a completeness assignment
under which the shadow framebuffer (id 7) is incomplete while the default
framebuffer is complete, no diagnostic is emitted - contradicting the
claim that the shadow framebuffer itself is verified and that a diagnostic
appears whenever it is incomplete. -/
theorem prepareScene_fbo_check_reads_default_framebuffer :
    (∀ shadowMapFBO : ℤ, prepareSceneCheckedFramebuffer shadowMapFBO = some 0) ∧
    (prepareSceneCheckedFramebuffer 7 == some 7) = false ∧
    ((fun fb : ℤ => fb == 0) 7 = false ∧
      prepareSceneEmitsFBDiagnostic (fun fb : ℤ => fb == 0) 7 = false) := by
  refine ⟨fun fbo => rfl, by decide, by decide, by decide⟩

/-- C9: `LoadShaders` returns 0 (without creating a program) exactly when
the vertex shader file cannot be opened; an unopenable fragment file is
instead tolerated - the function compiles an empty fragment source, links,
and returns the new program id. -/
theorem loadShaders_file_failure_asymmetry (newProgramID : ℤ)
    (hpid : newProgramID ≠ 0) :
    (∀ fragmentFile : Option String,
      LoadShaders none fragmentFile newProgramID =
        ⟨0, false, none⟩) ∧
    (∀ vertexCode : String,
      LoadShaders (some vertexCode) none newProgramID =
        ⟨newProgramID, true, some ""⟩) ∧
    (∀ (vertexFile fragmentFile : Option String),
      (LoadShaders vertexFile fragmentFile newProgramID).ret = 0 ↔ vertexFile = none) := by
  refine ⟨fun f => rfl, fun v => rfl, ?_⟩
  intro vf ff
  cases vf with
  | none => simp [LoadShaders]
  | some v =>
    cases ff with
    | none => simp [LoadShaders, hpid]
    | some f => simp [LoadShaders, hpid]

/-- Witness for C9 at program id 5. -/
theorem loadShaders_file_failure_asymmetry_witness :
    LoadShaders (some "vsrc") none 5 = ⟨5, true, some ""⟩ :=
  (loadShaders_file_failure_asymmetry 5 (by decide)).2.1 "vsrc"

/-- C10: with a null shader-manager pointer, `SetTransformations`,
`SetShaderColor`, `SetShaderTexture` and `SetTextureUVScale` return the
state unchanged: no uniform write, no texture-unit activation, no texture
bind (and, being total functions, they return normally). -/
theorem nullShader_setters_noop (cosd sind : ℚ → ℚ) (st : SMState)
    (h : st.shaderPresent = false) (scaleXYZ : Vec3) (rx ry rz : ℚ)
    (positionXYZ : Vec3) (r g b a u v : ℚ) (textureTag : String) :
    SetTransformations cosd sind st scaleXYZ rx ry rz positionXYZ = st ∧
    SetShaderColor st r g b a = st ∧
    SetShaderTexture st textureTag = st ∧
    SetTextureUVScale st u v = st := by
  refine ⟨?_, ?_, ?_, ?_⟩ <;>
    simp [SetTransformations, SetShaderColor, SetShaderTexture, SetTextureUVScale, h]

/-- Witness for C10 at a concrete null-shader state. -/
theorem nullShader_setters_noop_witness :
    SetTextureUVScale nullShaderState 2 2 = nullShaderState :=
  (nullShader_setters_noop (fun _ => 0) (fun _ => 0) nullShaderState rfl
    ⟨1, 1, 1⟩ 0 0 0 ⟨0, 0, 0⟩ 0 0 0 0 0 0 "t").2.2.2

end CS330
